import Mathlib

/-!
Verification of the ZIP/ZIP64 central-directory discovery core in
src/xPlatAppx/ZipStream.cpp.

The record catalog (LocalFileHeader, DataDescriptor, CentralFileHeader,
Zip64EndOfCentralDirectoryRecord, Zip64EndOfCentralDirectoryLocator,
EndCentralDirectoryRecord) and the discovery routine ZipStream::Read are
translated from ZipStream.cpp.  The generic field/record framework
(Meta::Field2Bytes and friends, StreamBase) lives in headers that are not
part of this tree; its behavior is modelled from the specification: a
fixed-width field consumes exactly its width in bytes, decodes them as an
unsigned little-endian integer, then runs its validator, and a record reads
its fields strictly in declaration order, failing fast on the first
validator error.

Streams are byte lists; a record read takes the bytes at the current
position and returns either an error or the decoded record together with
the bytes left over.
-/

/-- Decode a byte list as an unsigned little-endian integer.  Each list
element models one uint8, hence the reduction mod 256. -/
def leDecode : List Nat → Nat
  | [] => 0
  | b :: rest => b % 256 + 256 * leDecode rest

/-- Encode the low w bytes of a natural number in little-endian order;
this is the wire layout every fixed-width field uses. -/
def leEncode : Nat → Nat → List Nat
  | 0, _ => []
  | w + 1, v => v % 256 :: leEncode w (v / 256)

/-- Error kinds thrown by the validators in ZipStream.cpp
(ZipException::Error values used there).  InsufficientData is modelled
from the spec: a fixed-width read fails when fewer than width bytes remain
(the zero-byte-stream scenario: cannot read EOCD, insufficient bytes);
Exceptions.hpp itself is not part of this tree. -/
inductive ZipError
  | InvalidHeader
  | FieldOutOfRange
  | InvalidZip64CentralDirectoryRecord
  | InvalidZip64CentralDirectoryLocator
  | InvalidEndOfCentralDirectoryRecord
  | InsufficientData
  deriving DecidableEq, Repr

instance {ε α : Type} [DecidableEq ε] [DecidableEq α] : DecidableEq (Except ε α)
  | Except.error e, Except.error f =>
    if h : e = f then isTrue (congrArg Except.error h)
    else isFalse (fun hc => h (Except.error.inj hc))
  | Except.error _, Except.ok _ => isFalse (fun hc => Except.noConfusion hc)
  | Except.ok _, Except.error _ => isFalse (fun hc => Except.noConfusion hc)
  | Except.ok a, Except.ok b =>
    if h : a = b then isTrue (congrArg Except.ok h)
    else isFalse (fun hc => h (Except.ok.inj hc))

/-- Modelled from the spec: a variable-width field (Meta::FieldNBytes)
consumes exactly its current width in bytes and yields the raw buffer. -/
def readBytes (w : Nat) (s : List Nat) : Except ZipError (List Nat × List Nat) :=
  if w ≤ s.length then Except.ok (s.take w, s.drop w) else Except.error ZipError.InsufficientData

/-- Modelled from the spec: a fixed-width field (Meta::Field2Bytes,
Field4Bytes, Field8Bytes) consumes exactly w bytes and decodes them as an
unsigned little-endian integer. -/
def readUInt (w : Nat) (s : List Nat) : Except ZipError (Nat × List Nat) :=
  if w ≤ s.length then Except.ok (leDecode (s.take w), s.drop w)
  else Except.error ZipError.InsufficientData

/-- Validator step: mirrors the pattern (if (violated) throw ZipException(...))
used by every field validator in ZipStream.cpp. -/
def throwIf (c : Prop) [Decidable c] (e : ZipError) : Except ZipError Unit :=
  if c then Except.error e else Except.ok ()

theorem leEncode_length (w v : Nat) : (leEncode w v).length = w := by
  induction w generalizing v with
  | zero => rfl
  | succ n ih => simp [leEncode, ih]

theorem leDecode_leEncode (w v : Nat) : leDecode (leEncode w v) = v % 256 ^ w := by
  induction w generalizing v with
  | zero => simp [leEncode, leDecode, Nat.mod_one]
  | succ n ih =>
    simp only [leEncode, leDecode, ih, pow_succ]
    rw [show (256 : Nat) ^ n * 256 = 256 * 256 ^ n from Nat.mul_comm _ _, Nat.mod_mul]
    omega

theorem leDecode_lt (b : List Nat) : leDecode b < 256 ^ b.length := by
  induction b with
  | nil => simp [leDecode]
  | cons x rest ih =>
    have hx : x % 256 < 256 := Nat.mod_lt _ (by omega)
    simp only [leDecode, List.length_cons, pow_succ]
    calc x % 256 + 256 * leDecode rest < 256 + 256 * leDecode rest := by omega
    _ = 256 * (leDecode rest + 1) := by ring
    _ ≤ 256 * 256 ^ rest.length := by
        have : leDecode rest + 1 ≤ 256 ^ rest.length := ih
        exact Nat.mul_le_mul_left _ this
    _ = 256 ^ rest.length * 256 := by ring

theorem take_append_of_length {w : Nat} {b rest : List Nat} (h : b.length = w) :
    (b ++ rest).take w = b := by
  subst h; exact List.take_left b rest

theorem drop_append_of_length {w : Nat} {b rest : List Nat} (h : b.length = w) :
    (b ++ rest).drop w = rest := by
  subst h; exact List.drop_left b rest

theorem readUInt_append {w : Nat} {b rest : List Nat} (h : b.length = w) :
    readUInt w (b ++ rest) = Except.ok (leDecode b, rest) := by
  have hle : w ≤ (b ++ rest).length := by rw [List.length_append]; omega
  simp [readUInt, hle, take_append_of_length h, drop_append_of_length h]
  omega

theorem readUInt_encode (w v : Nat) (rest : List Nat) :
    readUInt w (leEncode w v ++ rest) = Except.ok (v % 256 ^ w, rest) := by
  rw [readUInt_append (leEncode_length w v), leDecode_leEncode]

theorem readBytes_append {w : Nat} {b rest : List Nat} (h : b.length = w) :
    readBytes w (b ++ rest) = Except.ok (b, rest) := by
  have hle : w ≤ (b ++ rest).length := by rw [List.length_append]; omega
  simp [readBytes, hle, take_append_of_length h, drop_append_of_length h]
  omega

theorem readBytes_zero (s : List Nat) : readBytes 0 s = Except.ok ([], s) := by
  simp [readBytes]

theorem readUInt_eq_ok {w : Nat} {s : List Nat} {p : Nat × List Nat} :
    readUInt w s = Except.ok p ↔ w ≤ s.length ∧ p = (leDecode (s.take w), s.drop w) := by
  unfold readUInt
  split <;> simp_all [eq_comm]

theorem readBytes_eq_ok {w : Nat} {s : List Nat} {p : List Nat × List Nat} :
    readBytes w s = Except.ok p ↔ w ≤ s.length ∧ p = (s.take w, s.drop w) := by
  unfold readBytes
  split <;> simp_all [eq_comm]

theorem throwIf_eq_ok {c : Prop} [Decidable c] {e : ZipError} {u : Unit} :
    throwIf c e = Except.ok u ↔ ¬ c := by
  unfold throwIf
  split <;> simp_all

theorem throwIf_neg {c : Prop} [Decidable c] (h : ¬ c) (e : ZipError) :
    throwIf c e = Except.ok () := by
  simp [throwIf, h]

theorem throwIf_pos {c : Prop} [Decidable c] (h : c) (e : ZipError) :
    throwIf c e = Except.error e := by
  simp [throwIf, h]

theorem except_bind_ok {α β : Type} {x : Except ZipError α} {f : α → Except ZipError β} {b : β} :
    x >>= f = Except.ok b ↔ ∃ a, x = Except.ok a ∧ f a = Except.ok b := by
  cases x <;> simp [Bind.bind, Except.bind]

theorem except_ok_bind {α β : Type} (a : α) (f : α → Except ZipError β) :
    (Except.ok a >>= f) = f a := rfl

theorem except_error_bind {α β : Type} (e : ZipError) (f : α → Except ZipError β) :
    ((Except.error e : Except ZipError α) >>= f) = Except.error e := rfl

theorem except_pure_eq {α : Type} (a : α) : (pure a : Except ZipError α) = Except.ok a := rfl

/-- EndCentralDirectoryRecord (ZipStream.cpp, class EndCentralDirectoryRecord):
one decoded field per position of the StructuredObject field list. -/
structure EndCentralDirectoryRecord where
  signature : Nat
  numberOfDisk : Nat
  diskStart : Nat
  totalNumberOfEntries : Nat
  totalEntriesInCentralDirectory : Nat
  sizeOfCentralDirectory : Nat
  offsetOfCentralDirectory : Nat
  commentLength : Nat
  comment : List Nat
  deriving DecidableEq, Repr

/-- Size of the EndCentralDirectoryRecord: the sum of its field widths
(4+2+2+2+2+4+4+2 fixed bytes; the variable comment field, position 8, has
width 0: the constructor leaves its buffer empty and no validator ever
resizes it). -/
def EndCentralDirectoryRecord.Size : Nat := 4 + 2 + 2 + 2 + 2 + 4 + 4 + 2

/-- Read of the EndCentralDirectoryRecord: fields in declaration order,
each validator straight from ZipStream.cpp lines 508-565. -/
def EndCentralDirectoryRecord.Read (s : List Nat) :
    Except ZipError (EndCentralDirectoryRecord × List Nat) := do
  -- 0 - end of central dir signature    4 bytes  (0x06054b50)
  let (signature, s) ← readUInt 4 s
  throwIf (signature ≠ 0x06054b50) ZipError.InvalidEndOfCentralDirectoryRecord
  -- 1 - number of this disk             2 bytes
  let (numberOfDisk, s) ← readUInt 2 s
  throwIf (numberOfDisk ≠ 0) ZipError.InvalidEndOfCentralDirectoryRecord
  -- 2 - number of the disk with the start of the central directory  2 bytes
  let (diskStart, s) ← readUInt 2 s
  throwIf (diskStart ≠ 0) ZipError.InvalidEndOfCentralDirectoryRecord
  -- 3 - total number of entries in the central directory on this disk  2 bytes
  let (totalNumberOfEntries, s) ← readUInt 2 s
  throwIf (totalNumberOfEntries ≠ 65535) ZipError.InvalidEndOfCentralDirectoryRecord
  -- 4 - total number of entries in the central directory  2 bytes
  let (totalEntriesInCentralDirectory, s) ← readUInt 2 s
  throwIf (totalEntriesInCentralDirectory ≠ 65535) ZipError.InvalidEndOfCentralDirectoryRecord
  -- 5 - size of the central directory   4 bytes
  let (sizeOfCentralDirectory, s) ← readUInt 4 s
  throwIf (sizeOfCentralDirectory ≠ 4294967295) ZipError.InvalidEndOfCentralDirectoryRecord
  -- 6 - offset of start of central directory with respect to the starting disk number  4 bytes
  let (offsetOfCentralDirectory, s) ← readUInt 4 s
  throwIf (offsetOfCentralDirectory ≠ 4294967295) ZipError.InvalidEndOfCentralDirectoryRecord
  -- 7 - .ZIP file comment length        2 bytes
  let (commentLength, s) ← readUInt 2 s
  throwIf (commentLength ≠ 0) ZipError.InvalidEndOfCentralDirectoryRecord
  -- 8 - .ZIP file comment (variable size, width 0: never resized)
  let (comment, s) ← readBytes 0 s
  throwIf (comment.length ≠ 0) ZipError.InvalidEndOfCentralDirectoryRecord
  pure ({ signature, numberOfDisk, diskStart, totalNumberOfEntries,
          totalEntriesInCentralDirectory, sizeOfCentralDirectory,
          offsetOfCentralDirectory, commentLength, comment }, s)

/-- Modelled from the spec: StructuredObject::Write (ObjectBase.hpp is not
in this tree) emits all fields in declaration order, fixed fields in the
little-endian layout, variable fields as their raw bytes. -/
def EndCentralDirectoryRecord.Write (r : EndCentralDirectoryRecord) : List Nat :=
  leEncode 4 r.signature ++ leEncode 2 r.numberOfDisk ++ leEncode 2 r.diskStart ++
  leEncode 2 r.totalNumberOfEntries ++ leEncode 2 r.totalEntriesInCentralDirectory ++
  leEncode 4 r.sizeOfCentralDirectory ++ leEncode 4 r.offsetOfCentralDirectory ++
  leEncode 2 r.commentLength ++ r.comment

/-- Field values set by the EndCentralDirectoryRecord constructor
(ZipStream.cpp lines 566-577); the comment buffer is left empty. -/
def EndCentralDirectoryRecord.construct : EndCentralDirectoryRecord where
  signature := 0x06054b50
  numberOfDisk := 0
  diskStart := 0
  totalNumberOfEntries := 65535
  totalEntriesInCentralDirectory := 65535
  sizeOfCentralDirectory := 4294967295
  offsetOfCentralDirectory := 4294967295
  commentLength := 0
  comment := []

/-- Zip64EndOfCentralDirectoryLocator (ZipStream.cpp lines 452-503). -/
structure Zip64EndOfCentralDirectoryLocator where
  signature : Nat
  numberOfDisk : Nat
  relativeOffset : Nat
  totalNumberOfDisks : Nat
  deriving DecidableEq, Repr

/-- Size of the locator: 4+4+8+4 bytes, all fields fixed width. -/
def Zip64EndOfCentralDirectoryLocator.Size : Nat := 4 + 4 + 8 + 4

/-- Read of the Zip64 locator; maxOffset is the bound supplied to the
constructor in ZipStream.cpp and captured by the field-2 validator. -/
def Zip64EndOfCentralDirectoryLocator.Read (maxOffset : Nat) (s : List Nat) :
    Except ZipError (Zip64EndOfCentralDirectoryLocator × List Nat) := do
  -- 0 - zip64 end of central dir locator signature 4 bytes (0x07064b50)
  let (signature, s) ← readUInt 4 s
  throwIf (signature ≠ 0x07064b50) ZipError.InvalidHeader
  -- 1 - number of the disk with the start of the zip64 end of central directory 4 bytes
  let (numberOfDisk, s) ← readUInt 4 s
  throwIf (numberOfDisk ≠ 0) ZipError.InvalidZip64CentralDirectoryLocator
  -- 2 - relative offset of the zip64 end of central directory record 8 bytes
  let (relativeOffset, s) ← readUInt 8 s
  throwIf (relativeOffset > maxOffset) ZipError.InvalidZip64CentralDirectoryLocator
  -- 3 - total number of disks           4 bytes
  let (totalNumberOfDisks, s) ← readUInt 4 s
  throwIf (totalNumberOfDisks ≠ 1) ZipError.InvalidZip64CentralDirectoryLocator
  pure ({ signature, numberOfDisk, relativeOffset, totalNumberOfDisks }, s)

/-- Modelled from the spec: StructuredObject::Write emits all fields in
order, little-endian. -/
def Zip64EndOfCentralDirectoryLocator.Write (r : Zip64EndOfCentralDirectoryLocator) : List Nat :=
  leEncode 4 r.signature ++ leEncode 4 r.numberOfDisk ++
  leEncode 8 r.relativeOffset ++ leEncode 4 r.totalNumberOfDisks

/-- Field values set by the locator constructor (lines 488-492); the
relative-offset field is not set there, so it keeps the zero default
(field default values are modelled from the spec, ObjectBase.hpp is not
in this tree). -/
def Zip64EndOfCentralDirectoryLocator.construct : Zip64EndOfCentralDirectoryLocator where
  signature := 0x07064b50
  numberOfDisk := 0
  relativeOffset := 0
  totalNumberOfDisks := 1

/-- Zip64EndOfCentralDirectoryRecord (ZipStream.cpp lines 337-450). -/
structure Zip64EndOfCentralDirectoryRecord where
  signature : Nat
  sizeOfZip64CDRecord : Nat
  versionMadeBy : Nat
  versionNeededToExtract : Nat
  numberOfThisDisk : Nat
  diskWithStartOfCD : Nat
  totalNumberOfEntries : Nat
  totalNumberOfEntriesInCD : Nat
  sizeOfCD : Nat
  offsetOfStartOfCD : Nat
  extensibleData : List Nat
  deriving DecidableEq, Repr

/-- Size of the Zip64 EOCD record: 4+8+2+2+4+4+8+8+8+8 fixed bytes plus
the zip64 extensible data sector, whose width is 0 (the constructor
resizes it to 0 and nothing ever resizes it again). -/
def Zip64EndOfCentralDirectoryRecord.Size : Nat := 4 + 8 + 2 + 2 + 4 + 4 + 8 + 8 + 8 + 8

/-- Read of the Zip64 EOCD record.  maxOffset is the bound the caller
passes at construction; the field-1 validator compares against
this->Size() - 12, which at read time is the constant Size - 12 because
the extensible sector still has width 0; the field-7 validator compares
against GetTotalNumberOfEntries(), i.e. the field-6 value just decoded. -/
def Zip64EndOfCentralDirectoryRecord.Read (maxOffset : Nat) (s : List Nat) :
    Except ZipError (Zip64EndOfCentralDirectoryRecord × List Nat) := do
  -- 0 - zip64 end of central dir signature 4 bytes (0x06064b50)
  let (signature, s) ← readUInt 4 s
  throwIf (signature ≠ 0x06064b50) ZipError.InvalidHeader
  -- 1 - size of zip64 end of central directory record 8 bytes
  let (sizeOfZip64CDRecord, s) ← readUInt 8 s
  throwIf (sizeOfZip64CDRecord ≠ Zip64EndOfCentralDirectoryRecord.Size - 12)
    ZipError.InvalidZip64CentralDirectoryRecord
  -- 2 - version made by                 2 bytes
  let (versionMadeBy, s) ← readUInt 2 s
  throwIf (versionMadeBy ≠ 45) ZipError.InvalidZip64CentralDirectoryRecord
  -- 3 - version needed to extract       2 bytes
  let (versionNeededToExtract, s) ← readUInt 2 s
  throwIf (versionNeededToExtract ≠ 45) ZipError.InvalidZip64CentralDirectoryRecord
  -- 4 - number of this disk             4 bytes
  let (numberOfThisDisk, s) ← readUInt 4 s
  throwIf (numberOfThisDisk ≠ 0) ZipError.InvalidZip64CentralDirectoryRecord
  -- 5 - number of the disk with the start of the central directory 4 bytes
  let (diskWithStartOfCD, s) ← readUInt 4 s
  throwIf (diskWithStartOfCD ≠ 0) ZipError.InvalidZip64CentralDirectoryRecord
  -- 6 - total number of entries in the central directory on this disk 8 bytes
  let (totalNumberOfEntries, s) ← readUInt 8 s
  throwIf (totalNumberOfEntries = 0) ZipError.InvalidZip64CentralDirectoryRecord
  -- 7 - total number of entries in the central directory 8 bytes
  let (totalNumberOfEntriesInCD, s) ← readUInt 8 s
  throwIf (totalNumberOfEntriesInCD ≠ totalNumberOfEntries)
    ZipError.InvalidZip64CentralDirectoryRecord
  -- 8 - size of the central directory   8 bytes
  let (sizeOfCD, s) ← readUInt 8 s
  throwIf (sizeOfCD = 0 ∨ sizeOfCD > maxOffset) ZipError.InvalidZip64CentralDirectoryRecord
  -- 9 - offset of start of central directory with respect to the starting disk number 8 bytes
  let (offsetOfStartOfCD, s) ← readUInt 8 s
  throwIf (offsetOfStartOfCD = 0 ∨ offsetOfStartOfCD > maxOffset)
    ZipError.InvalidZip64CentralDirectoryRecord
  -- 10 - zip64 extensible data sector (variable size, width 0)
  let (extensibleData, s) ← readBytes 0 s
  throwIf (extensibleData.length ≠ 0) ZipError.InvalidZip64CentralDirectoryRecord
  pure ({ signature, sizeOfZip64CDRecord, versionMadeBy, versionNeededToExtract,
          numberOfThisDisk, diskWithStartOfCD, totalNumberOfEntries,
          totalNumberOfEntriesInCD, sizeOfCD, offsetOfStartOfCD, extensibleData }, s)

/-- Modelled from the spec: StructuredObject::Write emits all fields in
order, little-endian, the extensible sector as raw bytes. -/
def Zip64EndOfCentralDirectoryRecord.Write (r : Zip64EndOfCentralDirectoryRecord) : List Nat :=
  leEncode 4 r.signature ++ leEncode 8 r.sizeOfZip64CDRecord ++
  leEncode 2 r.versionMadeBy ++ leEncode 2 r.versionNeededToExtract ++
  leEncode 4 r.numberOfThisDisk ++ leEncode 4 r.diskWithStartOfCD ++
  leEncode 8 r.totalNumberOfEntries ++ leEncode 8 r.totalNumberOfEntriesInCD ++
  leEncode 8 r.sizeOfCD ++ leEncode 8 r.offsetOfStartOfCD ++ r.extensibleData

/-- Field values after the Zip64 EOCD record constructor (lines 419-427):
signature, size (this->Size() - 12 with the extensible sector already
empty), versions, disk number and both entry counts (SetTotalNumberOfEntries(0)
writes fields 6 and 7) are set there; the disk-with-CD-start, size-of-CD and
offset-of-CD fields are not touched, so they keep the zero default (field
default values are modelled from the spec, ObjectBase.hpp is not in this
tree). -/
def Zip64EndOfCentralDirectoryRecord.construct : Zip64EndOfCentralDirectoryRecord where
  signature := 0x06064b50
  sizeOfZip64CDRecord := Zip64EndOfCentralDirectoryRecord.Size - 12
  versionMadeBy := 45
  versionNeededToExtract := 45
  numberOfThisDisk := 0
  diskWithStartOfCD := 0
  totalNumberOfEntries := 0
  totalNumberOfEntriesInCD := 0
  sizeOfCD := 0
  offsetOfStartOfCD := 0
  extensibleData := []

/-- SetTotalNumberOfEntries (lines 430-434) writes the same value into
field 6 and field 7. -/
def Zip64EndOfCentralDirectoryRecord.SetTotalNumberOfEntries
    (r : Zip64EndOfCentralDirectoryRecord) (value : Nat) : Zip64EndOfCentralDirectoryRecord :=
  { r with totalNumberOfEntries := value, totalNumberOfEntriesInCD := value }

/-- GetTotalNumberOfEntries (line 429) returns field 6. -/
def Zip64EndOfCentralDirectoryRecord.GetTotalNumberOfEntries
    (r : Zip64EndOfCentralDirectoryRecord) : Nat := r.totalNumberOfEntries

/-- LocalFileHeader (ZipStream.cpp lines 60-139). -/
structure LocalFileHeader where
  signature : Nat
  versionNeededToExtract : Nat
  generalPurposeBitFlag : Nat
  compressionMethod : Nat
  lastModFileTime : Nat
  lastModFileDate : Nat
  crc32 : Nat
  compressedSize : Nat
  uncompressedSize : Nat
  fileNameLength : Nat
  extraFieldLength : Nat
  fileName : List Nat
  extraField : List Nat
  deriving DecidableEq, Repr

/-- Read of the LocalFileHeader.  The field-9 and field-10 validators
check their value against the 16-bit maximum and resize the corresponding
variable field (11 and 12), which is why those two variable reads consume
exactly the decoded lengths. -/
def LocalFileHeader.Read (s : List Nat) : Except ZipError (LocalFileHeader × List Nat) := do
  -- 0 - local file header signature     4 bytes (0x04034b50)
  let (signature, s) ← readUInt 4 s
  throwIf (signature ≠ 0x04034b50) ZipError.InvalidHeader
  -- 1 - version needed to extract       2 bytes
  let (versionNeededToExtract, s) ← readUInt 2 s
  -- 2 - general purpose bit flag        2 bytes
  let (generalPurposeBitFlag, s) ← readUInt 2 s
  -- 3 - compression method              2 bytes
  let (compressionMethod, s) ← readUInt 2 s
  -- 4 - last mod file time              2 bytes
  let (lastModFileTime, s) ← readUInt 2 s
  -- 5 - last mod file date              2 bytes
  let (lastModFileDate, s) ← readUInt 2 s
  -- 6 - crc-32                          4 bytes
  let (crc32, s) ← readUInt 4 s
  -- 7 - compressed size                 4 bytes
  let (compressedSize, s) ← readUInt 4 s
  -- 8 - uncompressed size               4 bytes
  let (uncompressedSize, s) ← readUInt 4 s
  -- 9 - file name length                2 bytes
  let (fileNameLength, s) ← readUInt 2 s
  throwIf (fileNameLength > 65535) ZipError.FieldOutOfRange
  -- 10 - extra field length             2 bytes
  let (extraFieldLength, s) ← readUInt 2 s
  throwIf (extraFieldLength > 65535) ZipError.FieldOutOfRange
  -- 11 - file name (variable size, resized to field 9 by its validator)
  let (fileName, s) ← readBytes fileNameLength s
  -- 12 - extra field (variable size, resized to field 10 by its validator)
  let (extraField, s) ← readBytes extraFieldLength s
  pure ({ signature, versionNeededToExtract, generalPurposeBitFlag, compressionMethod,
          lastModFileTime, lastModFileDate, crc32, compressedSize, uncompressedSize,
          fileNameLength, extraFieldLength, fileName, extraField }, s)

/-- Modelled from the spec: StructuredObject::Write emits all fields in
order, little-endian, variable fields as raw bytes. -/
def LocalFileHeader.Write (r : LocalFileHeader) : List Nat :=
  leEncode 4 r.signature ++ leEncode 2 r.versionNeededToExtract ++
  leEncode 2 r.generalPurposeBitFlag ++ leEncode 2 r.compressionMethod ++
  leEncode 2 r.lastModFileTime ++ leEncode 2 r.lastModFileDate ++
  leEncode 4 r.crc32 ++ leEncode 4 r.compressedSize ++ leEncode 4 r.uncompressedSize ++
  leEncode 2 r.fileNameLength ++ leEncode 2 r.extraFieldLength ++
  r.fileName ++ r.extraField

/-- GetFileName (lines 75-78) returns the field-11 buffer. -/
def LocalFileHeader.GetFileName (h : LocalFileHeader) : List Nat := h.fileName

/-- GetFileNameLength (line 63) returns field 9. -/
def LocalFileHeader.GetFileNameLength (h : LocalFileHeader) : Nat := h.fileNameLength

/-- SetFileNameLength (line 64) writes field 9. -/
def LocalFileHeader.SetFileNameLength (h : LocalFileHeader) (value : Nat) : LocalFileHeader :=
  { h with fileNameLength := value }

/-- SetFileName (lines 80-86).  The source dereferences the field-11
buffer into a local by-value copy (auto data = *GetValue(...)), then
resizes and assigns that copy, which is discarded; only the
SetFileNameLength call survives, with name.size() narrowed to uint16. -/
def LocalFileHeader.SetFileName (h : LocalFileHeader) (name : List Nat) : LocalFileHeader :=
  h.SetFileNameLength (name.length % 65536)

/-- CentralFileHeader (ZipStream.cpp lines 167-335). -/
structure CentralFileHeader where
  signature : Nat
  versionMadeBy : Nat
  versionNeededToExtract : Nat
  generalPurposeBitFlag : Nat
  compressionMethod : Nat
  lastModFileTime : Nat
  lastModFileDate : Nat
  crc32 : Nat
  compressedSize : Nat
  uncompressedSize : Nat
  fileNameLength : Nat
  extraFieldLength : Nat
  fileCommentLength : Nat
  diskNumberStart : Nat
  internalFileAttributes : Nat
  externalFileAttributes : Nat
  relativeOffsetOfLocalHeader : Nat
  fileName : List Nat
  extraField : List Nat
  comment : List Nat
  deriving DecidableEq, Repr

/-- Read of the CentralFileHeader.  The field-10, 11 and 12 validators
bound their values by the 16-bit maximum and resize fields 17, 18 and 19
respectively. -/
def CentralFileHeader.Read (s : List Nat) : Except ZipError (CentralFileHeader × List Nat) := do
  -- 0 - central file header signature   4 bytes (0x02014b50)
  let (signature, s) ← readUInt 4 s
  throwIf (signature ≠ 0x02014b50) ZipError.InvalidHeader
  -- 1 - version made by                 2 bytes
  let (versionMadeBy, s) ← readUInt 2 s
  -- 2 - version needed to extract       2 bytes
  let (versionNeededToExtract, s) ← readUInt 2 s
  -- 3 - general purpose bit flag        2 bytes
  let (generalPurposeBitFlag, s) ← readUInt 2 s
  -- 4 - compression method              2 bytes
  let (compressionMethod, s) ← readUInt 2 s
  -- 5 - last mod file time              2 bytes
  let (lastModFileTime, s) ← readUInt 2 s
  -- 6 - last mod file date              2 bytes
  let (lastModFileDate, s) ← readUInt 2 s
  -- 7 - crc-32                          4 bytes
  let (crc32, s) ← readUInt 4 s
  -- 8 - compressed size                 4 bytes
  let (compressedSize, s) ← readUInt 4 s
  -- 9 - uncompressed size               4 bytes
  let (uncompressedSize, s) ← readUInt 4 s
  -- 10 - file name length               2 bytes
  let (fileNameLength, s) ← readUInt 2 s
  throwIf (fileNameLength > 65535) ZipError.FieldOutOfRange
  -- 11 - extra field length             2 bytes
  let (extraFieldLength, s) ← readUInt 2 s
  throwIf (extraFieldLength > 65535) ZipError.FieldOutOfRange
  -- 12 - file comment length            2 bytes
  let (fileCommentLength, s) ← readUInt 2 s
  throwIf (fileCommentLength > 65535) ZipError.FieldOutOfRange
  -- 13 - disk number start              2 bytes
  let (diskNumberStart, s) ← readUInt 2 s
  -- 14 - internal file attributes       2 bytes
  let (internalFileAttributes, s) ← readUInt 2 s
  -- 15 - external file attributes       4 bytes
  let (externalFileAttributes, s) ← readUInt 4 s
  -- 16 - relative offset of local header 4 bytes
  let (relativeOffsetOfLocalHeader, s) ← readUInt 4 s
  -- 17 - file name (variable size, resized to field 10 by its validator)
  let (fileName, s) ← readBytes fileNameLength s
  -- 18 - extra field (variable size, resized to field 11 by its validator)
  let (extraField, s) ← readBytes extraFieldLength s
  -- 19 - file comment (variable size, resized to field 12 by its validator)
  let (comment, s) ← readBytes fileCommentLength s
  pure ({ signature, versionMadeBy, versionNeededToExtract, generalPurposeBitFlag,
          compressionMethod, lastModFileTime, lastModFileDate, crc32, compressedSize,
          uncompressedSize, fileNameLength, extraFieldLength, fileCommentLength,
          diskNumberStart, internalFileAttributes, externalFileAttributes,
          relativeOffsetOfLocalHeader, fileName, extraField, comment }, s)

/-- Modelled from the spec: StructuredObject::Write emits all fields in
order, little-endian, variable fields as raw bytes. -/
def CentralFileHeader.Write (r : CentralFileHeader) : List Nat :=
  leEncode 4 r.signature ++ leEncode 2 r.versionMadeBy ++
  leEncode 2 r.versionNeededToExtract ++ leEncode 2 r.generalPurposeBitFlag ++
  leEncode 2 r.compressionMethod ++ leEncode 2 r.lastModFileTime ++
  leEncode 2 r.lastModFileDate ++ leEncode 4 r.crc32 ++
  leEncode 4 r.compressedSize ++ leEncode 4 r.uncompressedSize ++
  leEncode 2 r.fileNameLength ++ leEncode 2 r.extraFieldLength ++
  leEncode 2 r.fileCommentLength ++ leEncode 2 r.diskNumberStart ++
  leEncode 2 r.internalFileAttributes ++ leEncode 4 r.externalFileAttributes ++
  leEncode 4 r.relativeOffsetOfLocalHeader ++ r.fileName ++ r.extraField ++ r.comment

/-- GetFileName (lines 222-225) returns the field-17 buffer. -/
def CentralFileHeader.GetFileName (h : CentralFileHeader) : List Nat := h.fileName

/-- GetExtraFieldLength (line 203) returns field 11. -/
def CentralFileHeader.GetExtraFieldLength (h : CentralFileHeader) : Nat := h.extraFieldLength

/-- SetExtraFieldLength (line 204) writes field 11. -/
def CentralFileHeader.SetExtraFieldLength (h : CentralFileHeader) (value : Nat) :
    CentralFileHeader := { h with extraFieldLength := value }

/-- GetFileCommentLength (line 206) returns field 12. -/
def CentralFileHeader.GetFileCommentLength (h : CentralFileHeader) : Nat := h.fileCommentLength

/-- SetFileCommentLength (line 207) writes field 12. -/
def CentralFileHeader.SetFileCommentLength (h : CentralFileHeader) (value : Nat) :
    CentralFileHeader := { h with fileCommentLength := value }

/-- GetComment (lines 249-253) returns the field-19 buffer. -/
def CentralFileHeader.GetComment (h : CentralFileHeader) : List Nat := h.comment

/-- SetComment (lines 255-261).  The source writes the comment into the
field-19 buffer through the shared pointer (a real update), and then calls
SetExtraFieldLength - not SetFileCommentLength - with comment.size()
narrowed to uint16, so the length lands in field 11. -/
def CentralFileHeader.SetComment (h : CentralFileHeader) (comment : List Nat) :
    CentralFileHeader :=
  ({ h with comment := comment }).SetExtraFieldLength (comment.length % 65536)

/-- GetRelativeOffset (line 494) returns field 2. -/
def Zip64EndOfCentralDirectoryLocator.GetRelativeOffset
    (r : Zip64EndOfCentralDirectoryLocator) : Nat := r.relativeOffset

/-- ZipStream state.  Modelled from the spec for the declaration side
(ZipStream.hpp is not in this tree): the archive object owns the mapping
from entry name to its metadata, and no entry is visible before the
central directory has been read, so a freshly opened stream starts with an
empty containedFiles collection. -/
structure ZipStream where
  containedFiles : List (List Nat × Nat)
  deriving DecidableEq, Repr

/-- ZipStream::Read (ZipStream.cpp lines 591-606), over a stream holding
the bytes d.  Seek(-Size, END) positions at d.length - Size; Ftell() after
a successful record read is the seek position plus the record size, since
a record read consumes exactly its size in bytes.  The body performs the
three record reads and nothing else; in particular containedFiles is never
touched. -/
def ZipStream.Read (z : ZipStream) (d : List Nat) : Except ZipError ZipStream := do
  -- stream->Seek(-1 * endCentralDirectoryRecord.Size(), END); endCentralDirectoryRecord.Read()
  let eocdPos := d.length - EndCentralDirectoryRecord.Size
  let _ ← EndCentralDirectoryRecord.Read (d.drop eocdPos)
  -- Zip64EndOfCentralDirectoryLocator zip64Locator(stream, Ftell() - endCentralDirectoryRecord.Size())
  let ftellAfterEocd := eocdPos + EndCentralDirectoryRecord.Size
  let locatorBound := ftellAfterEocd - EndCentralDirectoryRecord.Size
  -- stream->Seek(-1 * (endCentralDirectoryRecord.Size() + zip64Locator.Size()), END); zip64Locator.Read()
  let locatorPos := d.length -
    (EndCentralDirectoryRecord.Size + Zip64EndOfCentralDirectoryLocator.Size)
  let (zip64Locator, _) ← Zip64EndOfCentralDirectoryLocator.Read locatorBound (d.drop locatorPos)
  -- Zip64EndOfCentralDirectoryRecord zip64EndOfCentralDirectory(stream, Ftell() - zip64Locator.Size())
  let ftellAfterLocator := locatorPos + Zip64EndOfCentralDirectoryLocator.Size
  let zip64Bound := ftellAfterLocator - Zip64EndOfCentralDirectoryLocator.Size
  -- stream->Seek(zip64Locator.GetRelativeOffset(), START); zip64EndOfCentralDirectory.Read()
  let _ ← Zip64EndOfCentralDirectoryRecord.Read zip64Bound
    (d.drop (Zip64EndOfCentralDirectoryLocator.GetRelativeOffset zip64Locator))
  pure z

/-- ZipStream::GetFileNames (lines 608-616): the first component of every
containedFiles element, in order. -/
def ZipStream.GetFileNames (z : ZipStream) : List (List Nat) :=
  z.containedFiles.map (fun it => it.1)

/-- Modelled from the spec: the discovery procedure exactly as claim C4
words it, differing from ZipStream::Read only in the bound passed to the
Zip64 EOCD read, namely the stream position just prior to the absolute
seek (the position after the locator read) instead of the position at
which the locator record begins. -/
def ZipStream.ReadAsClaimed (z : ZipStream) (d : List Nat) : Except ZipError ZipStream := do
  let eocdPos := d.length - EndCentralDirectoryRecord.Size
  let _ ← EndCentralDirectoryRecord.Read (d.drop eocdPos)
  let locatorBound := eocdPos
  let locatorPos := d.length -
    (EndCentralDirectoryRecord.Size + Zip64EndOfCentralDirectoryLocator.Size)
  let (zip64Locator, _) ← Zip64EndOfCentralDirectoryLocator.Read locatorBound (d.drop locatorPos)
  let zip64Bound := locatorPos + Zip64EndOfCentralDirectoryLocator.Size
  let _ ← Zip64EndOfCentralDirectoryRecord.Read zip64Bound
    (d.drop (Zip64EndOfCentralDirectoryLocator.GetRelativeOffset zip64Locator))
  pure z

/-- Zip64 EOCD record used by the bound counterexample: one entry, central
directory of declared size 60 starting at offset 1. -/
def zip64BoundSample : Zip64EndOfCentralDirectoryRecord :=
  { Zip64EndOfCentralDirectoryRecord.construct with
      totalNumberOfEntries := 1, totalNumberOfEntriesInCD := 1,
      sizeOfCD := 60, offsetOfStartOfCD := 1 }

/-- Stream where the Zip64 EOCD sits at offset 0, the locator at 56 and
the EOCD trailer at 76; total length 98.  The declared size-of-CD, 60,
lies strictly between the locator start (98 - 42 = 56) and the position
after the locator read (98 - 22 = 76). -/
def boundCounterexampleStream : List Nat :=
  zip64BoundSample.Write ++ Zip64EndOfCentralDirectoryLocator.construct.Write ++
  EndCentralDirectoryRecord.construct.Write

/-- Local file header for an entry named "a" with no data. -/
def lfhSample : LocalFileHeader where
  signature := 0x04034b50
  versionNeededToExtract := 45
  generalPurposeBitFlag := 0
  compressionMethod := 0
  lastModFileTime := 0
  lastModFileDate := 0
  crc32 := 0
  compressedSize := 0
  uncompressedSize := 0
  fileNameLength := 1
  extraFieldLength := 0
  fileName := [97]
  extraField := []

/-- Central file header for the entry named "a" at local-header offset 0. -/
def cfhSample : CentralFileHeader where
  signature := 0x02014b50
  versionMadeBy := 45
  versionNeededToExtract := 45
  generalPurposeBitFlag := 0
  compressionMethod := 0
  lastModFileTime := 0
  lastModFileDate := 0
  crc32 := 0
  compressedSize := 0
  uncompressedSize := 0
  fileNameLength := 1
  extraFieldLength := 0
  fileCommentLength := 0
  diskNumberStart := 0
  internalFileAttributes := 0
  externalFileAttributes := 0
  relativeOffsetOfLocalHeader := 0
  fileName := [97]
  extraField := []
  comment := []

/-- Zip64 EOCD record for the one-entry archive: central directory of size
47 at offset 31. -/
def zip64OneEntry : Zip64EndOfCentralDirectoryRecord :=
  { Zip64EndOfCentralDirectoryRecord.construct with
      totalNumberOfEntries := 1, totalNumberOfEntriesInCD := 1,
      sizeOfCD := 47, offsetOfStartOfCD := 31 }

/-- Locator pointing at the Zip64 EOCD record at offset 78. -/
def locatorOneEntry : Zip64EndOfCentralDirectoryLocator :=
  { Zip64EndOfCentralDirectoryLocator.construct with relativeOffset := 78 }

/-- Complete well-formed Zip64 archive holding one entry named "a":
local file header at 0 (31 bytes), central file header at 31 (47 bytes),
Zip64 EOCD at 78, locator at 134, EOCD trailer at 154; total length 176. -/
def oneEntryArchive : List Nat :=
  lfhSample.Write ++ cfhSample.Write ++ zip64OneEntry.Write ++
  locatorOneEntry.Write ++ EndCentralDirectoryRecord.construct.Write

theorem take_leEncode (w v : Nat) (rest : List Nat) :
    (leEncode w v ++ rest).take w = leEncode w v :=
  take_append_of_length (leEncode_length w v)

theorem drop_leEncode (w v : Nat) (rest : List Nat) :
    (leEncode w v ++ rest).drop w = rest :=
  drop_append_of_length (leEncode_length w v)

theorem eocdRead_ok_facts {s : List Nat}
    {r : EndCentralDirectoryRecord} {rest : List Nat}
    (h : EndCentralDirectoryRecord.Read s = Except.ok (r, rest)) :
    r.signature = 0x06054b50 ∧ r.numberOfDisk = 0 ∧ r.diskStart = 0 ∧
    r.totalNumberOfEntries = 65535 ∧ r.totalEntriesInCentralDirectory = 65535 ∧
    r.sizeOfCentralDirectory = 4294967295 ∧ r.offsetOfCentralDirectory = 4294967295 ∧
    r.commentLength = 0 ∧ r.comment = [] := by
  simp only [EndCentralDirectoryRecord.Read, except_bind_ok, readUInt_eq_ok, readBytes_eq_ok,
    throwIf_eq_ok, except_pure_eq, Prod.exists, Prod.mk.injEq, Except.ok.injEq, ne_eq, not_not,
    exists_const] at h
  obtain ⟨v0, s0, ⟨hl0, hv0, hs0⟩, hc0, v1, s1, ⟨hl1, hv1, hs1⟩, hc1,
    v2, s2, ⟨hl2, hv2, hs2⟩, hc2, v3, s3, ⟨hl3, hv3, hs3⟩, hc3,
    v4, s4, ⟨hl4, hv4, hs4⟩, hc4, v5, s5, ⟨hl5, hv5, hs5⟩, hc5,
    v6, s6, ⟨hl6, hv6, hs6⟩, hc6, v7, s7, ⟨hl7, hv7, hs7⟩, hc7,
    v8, s8, ⟨hl8, hv8, hs8⟩, hc8, hr, hrest⟩ := h
  subst hr
  simp_all

theorem zip64LocatorRead_ok_facts {maxOffset : Nat} {s : List Nat}
    {r : Zip64EndOfCentralDirectoryLocator} {rest : List Nat}
    (h : Zip64EndOfCentralDirectoryLocator.Read maxOffset s = Except.ok (r, rest)) :
    r.signature = 0x07064b50 ∧ r.numberOfDisk = 0 ∧ r.relativeOffset ≤ maxOffset ∧
    r.totalNumberOfDisks = 1 ∧
    r.relativeOffset = leDecode ((((s.drop 4).drop 4)).take 8) := by
  simp only [Zip64EndOfCentralDirectoryLocator.Read, except_bind_ok, readUInt_eq_ok,
    throwIf_eq_ok, except_pure_eq, Prod.exists, Prod.mk.injEq, Except.ok.injEq, ne_eq, not_not,
    not_lt, gt_iff_lt, exists_const] at h
  obtain ⟨v0, s0, ⟨hl0, hv0, hs0⟩, hc0, v1, s1, ⟨hl1, hv1, hs1⟩, hc1,
    v2, s2, ⟨hl2, hv2, hs2⟩, hc2, v3, s3, ⟨hl3, hv3, hs3⟩, hc3, hr, hrest⟩ := h
  subst hr
  simp_all

theorem zip64RecordRead_ok_facts {maxOffset : Nat} {s : List Nat}
    {r : Zip64EndOfCentralDirectoryRecord} {rest : List Nat}
    (h : Zip64EndOfCentralDirectoryRecord.Read maxOffset s = Except.ok (r, rest)) :
    r.signature = 0x06064b50 ∧
    r.sizeOfZip64CDRecord = Zip64EndOfCentralDirectoryRecord.Size - 12 ∧
    r.versionMadeBy = 45 ∧ r.versionNeededToExtract = 45 ∧
    r.numberOfThisDisk = 0 ∧ r.diskWithStartOfCD = 0 ∧
    r.totalNumberOfEntries ≠ 0 ∧
    r.totalNumberOfEntriesInCD = r.totalNumberOfEntries ∧
    r.sizeOfCD ≠ 0 ∧ r.sizeOfCD ≤ maxOffset ∧
    r.offsetOfStartOfCD ≠ 0 ∧ r.offsetOfStartOfCD ≤ maxOffset ∧
    r.extensibleData = [] ∧
    r.totalNumberOfEntries =
      leDecode ((((((((s.drop 4).drop 8).drop 2).drop 2).drop 4).drop 4)).take 8) := by
  simp only [Zip64EndOfCentralDirectoryRecord.Read, except_bind_ok, readUInt_eq_ok,
    readBytes_eq_ok, throwIf_eq_ok, except_pure_eq, Prod.exists, Prod.mk.injEq,
    Except.ok.injEq, ne_eq, not_not, not_or, not_lt, gt_iff_lt, exists_const] at h
  obtain ⟨v0, s0, ⟨hl0, hv0, hs0⟩, hc0, v1, s1, ⟨hl1, hv1, hs1⟩, hc1,
    v2, s2, ⟨hl2, hv2, hs2⟩, hc2, v3, s3, ⟨hl3, hv3, hs3⟩, hc3,
    v4, s4, ⟨hl4, hv4, hs4⟩, hc4, v5, s5, ⟨hl5, hv5, hs5⟩, hc5,
    v6, s6, ⟨hl6, hv6, hs6⟩, hc6, v7, s7, ⟨hl7, hv7, hs7⟩, hc7,
    v8, s8, ⟨hl8, hv8, hs8⟩, hc8, v9, s9, ⟨hl9, hv9, hs9⟩, hc9,
    v10, s10, ⟨hl10, hv10, hs10⟩, hc10, hr, hrest⟩ := h
  subst hr
  simp_all


theorem except_bind_eq_error {α β : Type} {x : Except ZipError α} {f : α → Except ZipError β}
    {e : ZipError} :
    x >>= f = Except.error e ↔
      x = Except.error e ∨ ∃ a, x = Except.ok a ∧ f a = Except.error e := by
  cases x <;> simp [Bind.bind, Except.bind]

theorem readUInt_eq_error {w : Nat} {s : List Nat} {e : ZipError} :
    readUInt w s = Except.error e ↔ s.length < w ∧ e = ZipError.InsufficientData := by
  unfold readUInt
  split <;> simp_all [eq_comm]

theorem readBytes_eq_error {w : Nat} {s : List Nat} {e : ZipError} :
    readBytes w s = Except.error e ↔ s.length < w ∧ e = ZipError.InsufficientData := by
  unfold readBytes
  split <;> simp_all [eq_comm]

theorem throwIf_eq_error {c : Prop} [Decidable c] {er e : ZipError} :
    throwIf c er = Except.error e ↔ c ∧ e = er := by
  unfold throwIf
  split <;> simp_all [eq_comm]

theorem pure_eq_error {α : Type} {a : α} {e : ZipError} :
    (pure a : Except ZipError α) = Except.error e ↔ False := by
  simp [except_pure_eq]

theorem drop_leEncode_of_le {w n : Nat} (v : Nat) (rest : List Nat) (h : w ≤ n) :
    (leEncode w v ++ rest).drop n = rest.drop (n - w) := by
  conv_lhs => rw [show n = w + (n - w) from by omega]
  rw [← List.drop_drop, drop_leEncode]

theorem take_leEncode_self (w v : Nat) : (leEncode w v).take w = leEncode w v := by
  rw [show leEncode w v = leEncode w v ++ [] from (List.append_nil _).symm, take_leEncode]
  simp

set_option maxHeartbeats 2000000 in
/-- C2: every successfully read EndCentralDirectoryRecord carries exactly
the Zip64 escape sentinels 0xFFFF in both entry-count fields and
0xFFFFFFFF in the size- and offset-of-central-directory fields; and an
EOCD whose other fields are all well formed but whose entry-count or
CD-size/offset fields are not exactly those sentinels fails with
InvalidEndOfCentralDirectoryRecord, even though it would be a well-formed
non-Zip64 EOCD. -/
theorem eocd_sentinel_rule :
    (∀ s r rest, EndCentralDirectoryRecord.Read s = Except.ok (r, rest) →
      r.totalNumberOfEntries = 65535 ∧ r.totalEntriesInCentralDirectory = 65535 ∧
      r.sizeOfCentralDirectory = 4294967295 ∧ r.offsetOfCentralDirectory = 4294967295) ∧
    (∀ e1 e2 sz off : Nat, e1 < 65536 → e2 < 65536 → sz < 4294967296 → off < 4294967296 →
      (e1 ≠ 65535 ∨ e2 ≠ 65535 ∨ sz ≠ 4294967295 ∨ off ≠ 4294967295) →
      EndCentralDirectoryRecord.Read
        (leEncode 4 0x06054b50 ++ (leEncode 2 0 ++ (leEncode 2 0 ++ (leEncode 2 e1 ++
         (leEncode 2 e2 ++ (leEncode 4 sz ++ (leEncode 4 off ++ leEncode 2 0))))))) =
        Except.error ZipError.InvalidEndOfCentralDirectoryRecord) := by
  constructor
  · intro s r rest h
    have hf := eocdRead_ok_facts h
    exact ⟨hf.2.2.2.1, hf.2.2.2.2.1, hf.2.2.2.2.2.1, hf.2.2.2.2.2.2.1⟩
  · intro e1 e2 sz off he1 he2 hsz hoff hviol
    have m1 : e1 % 65536 = e1 := Nat.mod_eq_of_lt he1
    have m2 : e2 % 65536 = e2 := Nat.mod_eq_of_lt he2
    have m3 : sz % 4294967296 = sz := Nat.mod_eq_of_lt hsz
    have m4 : off % 4294967296 = off := Nat.mod_eq_of_lt hoff
    by_cases h1 : e1 = 65535
    · by_cases h2 : e2 = 65535
      · by_cases h3 : sz = 4294967295
        · by_cases h4 : off = 4294967295
          · rcases hviol with hv | hv | hv | hv <;> contradiction
          · simp [EndCentralDirectoryRecord.Read, except_bind_eq_error, except_bind_ok,
              readUInt_eq_ok, readUInt_eq_error, readBytes_eq_ok, readBytes_eq_error,
              throwIf_eq_ok, throwIf_eq_error, pure_eq_error, take_leEncode, drop_leEncode,
              drop_leEncode_of_le, take_leEncode_self, leDecode_leEncode, leEncode_length,
              Prod.exists, and_assoc, m1, m2, m3, m4, h1, h2, h3, h4]
        · simp [EndCentralDirectoryRecord.Read, except_bind_eq_error, except_bind_ok,
            readUInt_eq_ok, readUInt_eq_error, readBytes_eq_ok, readBytes_eq_error,
            throwIf_eq_ok, throwIf_eq_error, pure_eq_error, take_leEncode, drop_leEncode,
            drop_leEncode_of_le, take_leEncode_self, leDecode_leEncode, leEncode_length,
            Prod.exists, and_assoc, m1, m2, m3, h1, h2, h3]
      · simp [EndCentralDirectoryRecord.Read, except_bind_eq_error, except_bind_ok,
          readUInt_eq_ok, readUInt_eq_error, readBytes_eq_ok, readBytes_eq_error,
          throwIf_eq_ok, throwIf_eq_error, pure_eq_error, take_leEncode, drop_leEncode,
          drop_leEncode_of_le, take_leEncode_self, leDecode_leEncode, leEncode_length,
          Prod.exists, and_assoc, m1, m2, h1, h2]
    · simp [EndCentralDirectoryRecord.Read, except_bind_eq_error, except_bind_ok,
        readUInt_eq_ok, readUInt_eq_error, readBytes_eq_ok, readBytes_eq_error,
        throwIf_eq_ok, throwIf_eq_error, pure_eq_error, take_leEncode, drop_leEncode,
        drop_leEncode_of_le, take_leEncode_self, leDecode_leEncode, leEncode_length,
        Prod.exists, and_assoc, m1, h1]

/-- Witness for C2: the serialized constructor-default EOCD reads back
successfully and indeed carries the sentinels, and the same layout with
entry counts 5 instead of 0xFFFF is rejected. -/
theorem eocd_sentinel_rule_witness :
    ((EndCentralDirectoryRecord.construct : EndCentralDirectoryRecord).totalNumberOfEntries
        = 65535 ∧
      EndCentralDirectoryRecord.construct.totalEntriesInCentralDirectory = 65535 ∧
      EndCentralDirectoryRecord.construct.sizeOfCentralDirectory = 4294967295 ∧
      EndCentralDirectoryRecord.construct.offsetOfCentralDirectory = 4294967295) ∧
    EndCentralDirectoryRecord.Read
      (leEncode 4 0x06054b50 ++ (leEncode 2 0 ++ (leEncode 2 0 ++ (leEncode 2 5 ++
       (leEncode 2 5 ++ (leEncode 4 4294967295 ++ (leEncode 4 4294967295 ++ leEncode 2 0))))))) =
      Except.error ZipError.InvalidEndOfCentralDirectoryRecord :=
  ⟨eocd_sentinel_rule.1 EndCentralDirectoryRecord.construct.Write
      EndCentralDirectoryRecord.construct [] (by decide),
   eocd_sentinel_rule.2 5 5 4294967295 4294967295 (by decide) (by decide) (by decide)
      (by decide) (Or.inl (by decide))⟩

/-- C7: an EOCD whose comment-length field is any nonzero value is
rejected with InvalidEndOfCentralDirectoryRecord no matter what bytes
follow, and every successfully read EOCD has comment length 0 and an
empty comment buffer. -/
theorem eocd_comment_rule :
    (∀ cl rest, cl < 65536 → cl ≠ 0 →
      EndCentralDirectoryRecord.Read
        (leEncode 4 0x06054b50 ++ (leEncode 2 0 ++ (leEncode 2 0 ++ (leEncode 2 65535 ++
         (leEncode 2 65535 ++ (leEncode 4 4294967295 ++ (leEncode 4 4294967295 ++
         (leEncode 2 cl ++ rest)))))))) =
        Except.error ZipError.InvalidEndOfCentralDirectoryRecord) ∧
    (∀ s r rest, EndCentralDirectoryRecord.Read s = Except.ok (r, rest) →
      r.commentLength = 0 ∧ r.comment = []) := by
  constructor
  · intro cl rest hcl hne
    have m : cl % 65536 = cl := Nat.mod_eq_of_lt hcl
    simp [EndCentralDirectoryRecord.Read, except_bind_eq_error, except_bind_ok,
      readUInt_eq_ok, readUInt_eq_error, readBytes_eq_ok, readBytes_eq_error,
      throwIf_eq_ok, throwIf_eq_error, pure_eq_error, take_leEncode, drop_leEncode,
      drop_leEncode_of_le, take_leEncode_self, leDecode_leEncode, leEncode_length,
      Prod.exists, and_assoc, m, hne]
  · intro s r rest h
    have hf := eocdRead_ok_facts h
    exact ⟨hf.2.2.2.2.2.2.2.1, hf.2.2.2.2.2.2.2.2⟩

/-- Witness for C7: comment length 5 with zero trailing bytes is
rejected, and the serialized constructor-default EOCD (comment length 0)
reads back with an empty comment. -/
theorem eocd_comment_rule_witness :
    EndCentralDirectoryRecord.Read
      (leEncode 4 0x06054b50 ++ (leEncode 2 0 ++ (leEncode 2 0 ++ (leEncode 2 65535 ++
       (leEncode 2 65535 ++ (leEncode 4 4294967295 ++ (leEncode 4 4294967295 ++
       (leEncode 2 5 ++ [])))))))) =
      Except.error ZipError.InvalidEndOfCentralDirectoryRecord ∧
    ((EndCentralDirectoryRecord.construct : EndCentralDirectoryRecord).commentLength = 0 ∧
      EndCentralDirectoryRecord.construct.comment = []) :=
  ⟨eocd_comment_rule.1 5 [] (by decide) (by decide),
   eocd_comment_rule.2 EndCentralDirectoryRecord.construct.Write
     EndCentralDirectoryRecord.construct [] (by decide)⟩

set_option maxHeartbeats 1000000 in
/-- C3: a Zip64 EOCD whose decoded size-of-record field differs from the
record total byte size minus 12 is rejected with
InvalidZip64CentralDirectoryRecord; a successful read forces that field to
equal Size - 12; and the serialized constructor-default record satisfies
declared_size = serialized_size - 12. -/
theorem zip64_size_field_rule :
    (∀ maxOffset b8 rest, b8.length = 8 →
      leDecode b8 ≠ Zip64EndOfCentralDirectoryRecord.Size - 12 →
      Zip64EndOfCentralDirectoryRecord.Read maxOffset
        (leEncode 4 0x06064b50 ++ (b8 ++ rest)) =
        Except.error ZipError.InvalidZip64CentralDirectoryRecord) ∧
    (∀ maxOffset s r rest,
      Zip64EndOfCentralDirectoryRecord.Read maxOffset s = Except.ok (r, rest) →
      r.sizeOfZip64CDRecord = Zip64EndOfCentralDirectoryRecord.Size - 12) ∧
    (leDecode ((Zip64EndOfCentralDirectoryRecord.construct.Write.drop 4).take 8) =
      Zip64EndOfCentralDirectoryRecord.construct.Write.length - 12) := by
  refine ⟨?_, ?_, by decide⟩
  · intro maxOffset b8 rest h8 hne
    simp [Zip64EndOfCentralDirectoryRecord.Read, except_bind_eq_error, except_bind_ok,
      readUInt_eq_ok, readUInt_eq_error, readBytes_eq_ok, readBytes_eq_error,
      throwIf_eq_ok, throwIf_eq_error, pure_eq_error, take_leEncode, drop_leEncode,
      drop_leEncode_of_le, take_leEncode_self, leDecode_leEncode, leEncode_length,
      take_append_of_length h8, drop_append_of_length h8, List.length_append, h8,
      Nat.le_add_right, Prod.exists, and_assoc, hne]
  · intro maxOffset s r rest h
    exact (zip64RecordRead_ok_facts h).2.1

/-- Witness for C3: an all-zero size field (decoding to 0, not 44) is
rejected, and the one-entry sample record reads back with declared size
Size - 12. -/
theorem zip64_size_field_rule_witness :
    Zip64EndOfCentralDirectoryRecord.Read 0
      (leEncode 4 0x06064b50 ++ (leEncode 8 0 ++ [])) =
      Except.error ZipError.InvalidZip64CentralDirectoryRecord ∧
    zip64OneEntry.sizeOfZip64CDRecord = Zip64EndOfCentralDirectoryRecord.Size - 12 :=
  ⟨zip64_size_field_rule.1 0 (leEncode 8 0) [] (by decide) (by decide),
   zip64_size_field_rule.2.1 56 zip64OneEntry.Write zip64OneEntry [] (by decide)⟩

set_option maxHeartbeats 1000000 in
/-- C6 (amended): a four-byte leading signature that decodes to anything
but the record magic makes the read fail at that first field, for every
possible continuation of the stream; LocalFileHeader, CentralFileHeader,
the Zip64 EOCD record and the Zip64 locator fail with the InvalidHeader
(signature-mismatch) kind, while the EndCentralDirectoryRecord reports
InvalidEndOfCentralDirectoryRecord for the same violation. -/
theorem signature_mismatch_rule :
    (∀ b rest, b.length = 4 → leDecode b ≠ 0x04034b50 →
      LocalFileHeader.Read (b ++ rest) = Except.error ZipError.InvalidHeader) ∧
    (∀ b rest, b.length = 4 → leDecode b ≠ 0x02014b50 →
      CentralFileHeader.Read (b ++ rest) = Except.error ZipError.InvalidHeader) ∧
    (∀ maxOffset b rest, b.length = 4 → leDecode b ≠ 0x06064b50 →
      Zip64EndOfCentralDirectoryRecord.Read maxOffset (b ++ rest) =
        Except.error ZipError.InvalidHeader) ∧
    (∀ maxOffset b rest, b.length = 4 → leDecode b ≠ 0x07064b50 →
      Zip64EndOfCentralDirectoryLocator.Read maxOffset (b ++ rest) =
        Except.error ZipError.InvalidHeader) ∧
    (∀ b rest, b.length = 4 → leDecode b ≠ 0x06054b50 →
      EndCentralDirectoryRecord.Read (b ++ rest) =
        Except.error ZipError.InvalidEndOfCentralDirectoryRecord) := by
  refine ⟨?_, ?_, ?_, ?_, ?_⟩
  · intro b rest h4 hne
    simp [LocalFileHeader.Read, except_bind_eq_error, except_bind_ok, readUInt_eq_ok,
      readUInt_eq_error, throwIf_eq_ok, throwIf_eq_error, take_append_of_length h4,
      drop_append_of_length h4, List.length_append, h4, Nat.le_add_right, Prod.exists,
      and_assoc, hne]
  · intro b rest h4 hne
    simp [CentralFileHeader.Read, except_bind_eq_error, except_bind_ok, readUInt_eq_ok,
      readUInt_eq_error, throwIf_eq_ok, throwIf_eq_error, take_append_of_length h4,
      drop_append_of_length h4, List.length_append, h4, Nat.le_add_right, Prod.exists,
      and_assoc, hne]
  · intro maxOffset b rest h4 hne
    simp [Zip64EndOfCentralDirectoryRecord.Read, except_bind_eq_error, except_bind_ok,
      readUInt_eq_ok, readUInt_eq_error, throwIf_eq_ok, throwIf_eq_error,
      take_append_of_length h4, drop_append_of_length h4, List.length_append, h4,
      Nat.le_add_right, Prod.exists, and_assoc, hne]
  · intro maxOffset b rest h4 hne
    simp [Zip64EndOfCentralDirectoryLocator.Read, except_bind_eq_error, except_bind_ok,
      readUInt_eq_ok, readUInt_eq_error, throwIf_eq_ok, throwIf_eq_error,
      take_append_of_length h4, drop_append_of_length h4, List.length_append, h4,
      Nat.le_add_right, Prod.exists, and_assoc, hne]
  · intro b rest h4 hne
    simp [EndCentralDirectoryRecord.Read, except_bind_eq_error, except_bind_ok,
      readUInt_eq_ok, readUInt_eq_error, throwIf_eq_ok, throwIf_eq_error,
      take_append_of_length h4, drop_append_of_length h4, List.length_append, h4,
      Nat.le_add_right, Prod.exists, and_assoc, hne]

/-- Witness for C6 (amended): flipping the last signature byte of a
LocalFileHeader and of an EOCD yields the two different error kinds. -/
theorem signature_mismatch_rule_witness :
    LocalFileHeader.Read ([80, 75, 3, 5] ++ []) = Except.error ZipError.InvalidHeader ∧
    EndCentralDirectoryRecord.Read ([80, 75, 5, 7] ++ []) =
      Except.error ZipError.InvalidEndOfCentralDirectoryRecord :=
  ⟨signature_mismatch_rule.1 [80, 75, 3, 5] [] (by decide) (by decide),
   signature_mismatch_rule.2.2.2.2 [80, 75, 5, 7] [] (by decide) (by decide)⟩

/-- Counterexample for C6 as stated: the EOCD record with its leading
signature byte-flipped (0x07 in place of 0x06) does not fail with the
InvalidHeader kind every other record uses for a signature mismatch; it
reports InvalidEndOfCentralDirectoryRecord instead. -/
theorem eocd_signature_error_kind_counterexample :
    EndCentralDirectoryRecord.Read [80, 75, 5, 7] =
      Except.error ZipError.InvalidEndOfCentralDirectoryRecord ∧
    LocalFileHeader.Read [80, 75, 3, 5] = Except.error ZipError.InvalidHeader ∧
    ZipError.InvalidEndOfCentralDirectoryRecord ≠ ZipError.InvalidHeader := by
  refine ⟨by decide, by decide, by decide⟩

set_option maxHeartbeats 2000000 in
/-- C5: a locator whose decoded relative offset equals its maxOffset bound
is accepted with exactly that value (no clamping), any strictly greater
decodable value is rejected with InvalidZip64CentralDirectoryLocator, a
Zip64 EOCD whose size-of-CD or offset-of-CD exceeds its maxOffset is
rejected with InvalidZip64CentralDirectoryRecord, and every successful
locator read carries a relative offset at most maxOffset. -/
theorem zip64_locator_bound_rule :
    (∀ maxOffset rest, maxOffset < 18446744073709551616 →
      Zip64EndOfCentralDirectoryLocator.Read maxOffset
        (leEncode 4 0x07064b50 ++ (leEncode 4 0 ++ (leEncode 8 maxOffset ++
         (leEncode 4 1 ++ rest)))) =
        Except.ok ({ signature := 0x07064b50, numberOfDisk := 0, relativeOffset := maxOffset,
                     totalNumberOfDisks := 1 }, rest)) ∧
    (∀ maxOffset v rest, v < 18446744073709551616 → maxOffset < v →
      Zip64EndOfCentralDirectoryLocator.Read maxOffset
        (leEncode 4 0x07064b50 ++ (leEncode 4 0 ++ (leEncode 8 v ++ rest))) =
        Except.error ZipError.InvalidZip64CentralDirectoryLocator) ∧
    (∀ maxOffset s loc rest,
      Zip64EndOfCentralDirectoryLocator.Read maxOffset s = Except.ok (loc, rest) →
      loc.relativeOffset ≤ maxOffset) ∧
    (∀ maxOffset v rest, v < 18446744073709551616 → maxOffset < v →
      Zip64EndOfCentralDirectoryRecord.Read maxOffset
        (leEncode 4 0x06064b50 ++ (leEncode 8 44 ++ (leEncode 2 45 ++ (leEncode 2 45 ++
         (leEncode 4 0 ++ (leEncode 4 0 ++ (leEncode 8 1 ++ (leEncode 8 1 ++
         (leEncode 8 v ++ rest))))))))) =
        Except.error ZipError.InvalidZip64CentralDirectoryRecord) ∧
    (∀ maxOffset v rest, v < 18446744073709551616 → maxOffset < v → 1 ≤ maxOffset →
      Zip64EndOfCentralDirectoryRecord.Read maxOffset
        (leEncode 4 0x06064b50 ++ (leEncode 8 44 ++ (leEncode 2 45 ++ (leEncode 2 45 ++
         (leEncode 4 0 ++ (leEncode 4 0 ++ (leEncode 8 1 ++ (leEncode 8 1 ++
         (leEncode 8 1 ++ (leEncode 8 v ++ rest)))))))))) =
        Except.error ZipError.InvalidZip64CentralDirectoryRecord) := by
  refine ⟨?_, ?_, ?_, ?_, ?_⟩
  · intro maxOffset rest hm
    have m : maxOffset % 18446744073709551616 = maxOffset := Nat.mod_eq_of_lt hm
    simp [Zip64EndOfCentralDirectoryLocator.Read, except_bind_ok, readUInt_eq_ok,
      throwIf_eq_ok, except_pure_eq, take_leEncode, drop_leEncode, drop_leEncode_of_le,
      take_leEncode_self, leDecode_leEncode, leEncode_length, Prod.exists, and_assoc, m]
  · intro maxOffset v rest hv hlt
    have m : v % 18446744073709551616 = v := Nat.mod_eq_of_lt hv
    simp [Zip64EndOfCentralDirectoryLocator.Read, except_bind_eq_error, except_bind_ok,
      readUInt_eq_ok, readUInt_eq_error, throwIf_eq_ok, throwIf_eq_error, pure_eq_error,
      take_leEncode, drop_leEncode, drop_leEncode_of_le, take_leEncode_self,
      leDecode_leEncode, leEncode_length, Prod.exists, and_assoc, m, hlt]
  · intro maxOffset s loc rest h
    exact (zip64LocatorRead_ok_facts h).2.2.1
  · intro maxOffset v rest hv hlt
    have m : v % 18446744073709551616 = v := Nat.mod_eq_of_lt hv
    simp [Zip64EndOfCentralDirectoryRecord.Read, except_bind_eq_error, except_bind_ok,
      readUInt_eq_ok, readUInt_eq_error, readBytes_eq_ok, readBytes_eq_error,
      throwIf_eq_ok, throwIf_eq_error, pure_eq_error, take_leEncode, drop_leEncode,
      drop_leEncode_of_le, take_leEncode_self, leDecode_leEncode, leEncode_length,
      Prod.exists, and_assoc, m, hlt]
    exact Or.symm (Classical.em _)
  · intro maxOffset v rest hv hlt hm1
    have m : v % 18446744073709551616 = v := Nat.mod_eq_of_lt hv
    have hnot : ¬ (1 = 0 ∨ maxOffset < 1) := by omega
    simp [Zip64EndOfCentralDirectoryRecord.Read, except_bind_eq_error, except_bind_ok,
      readUInt_eq_ok, readUInt_eq_error, readBytes_eq_ok, readBytes_eq_error,
      throwIf_eq_ok, throwIf_eq_error, pure_eq_error, take_leEncode, drop_leEncode,
      drop_leEncode_of_le, take_leEncode_self, leDecode_leEncode, leEncode_length,
      Prod.exists, and_assoc, m, hlt, hm1, Nat.lt_irrefl]
    exact Or.symm (Classical.em _)

/-- Witness for C5: at bound 5 the locator accepts offset 5 exactly and
rejects offset 6; the one-entry locator reads back with its offset within
bound; and a Zip64 EOCD with size-of-CD 6 or offset-of-CD 6 under bound 5
is rejected. -/
theorem zip64_locator_bound_rule_witness :
    Zip64EndOfCentralDirectoryLocator.Read 5
      (leEncode 4 0x07064b50 ++ (leEncode 4 0 ++ (leEncode 8 5 ++ (leEncode 4 1 ++ [])))) =
      Except.ok ({ signature := 0x07064b50, numberOfDisk := 0, relativeOffset := 5,
                   totalNumberOfDisks := 1 }, []) ∧
    Zip64EndOfCentralDirectoryLocator.Read 5
      (leEncode 4 0x07064b50 ++ (leEncode 4 0 ++ (leEncode 8 6 ++ []))) =
      Except.error ZipError.InvalidZip64CentralDirectoryLocator ∧
    locatorOneEntry.relativeOffset ≤ 154 ∧
    Zip64EndOfCentralDirectoryRecord.Read 5
      (leEncode 4 0x06064b50 ++ (leEncode 8 44 ++ (leEncode 2 45 ++ (leEncode 2 45 ++
       (leEncode 4 0 ++ (leEncode 4 0 ++ (leEncode 8 1 ++ (leEncode 8 1 ++
       (leEncode 8 6 ++ []))))))))) =
      Except.error ZipError.InvalidZip64CentralDirectoryRecord ∧
    Zip64EndOfCentralDirectoryRecord.Read 5
      (leEncode 4 0x06064b50 ++ (leEncode 8 44 ++ (leEncode 2 45 ++ (leEncode 2 45 ++
       (leEncode 4 0 ++ (leEncode 4 0 ++ (leEncode 8 1 ++ (leEncode 8 1 ++
       (leEncode 8 1 ++ (leEncode 8 6 ++ [])))))))))) =
      Except.error ZipError.InvalidZip64CentralDirectoryRecord :=
  ⟨zip64_locator_bound_rule.1 5 [] (by decide),
   zip64_locator_bound_rule.2.1 5 6 [] (by decide) (by decide),
   zip64_locator_bound_rule.2.2.1 154 locatorOneEntry.Write locatorOneEntry [] (by decide),
   zip64_locator_bound_rule.2.2.2.1 5 6 [] (by decide) (by decide),
   zip64_locator_bound_rule.2.2.2.2 5 6 [] (by decide) (by decide) (by decide)⟩

/-- C8: LocalFileHeader::SetFileName updates only the file-name-length
field (to the uint16-narrowed size of the new name) while leaving the
stored file-name bytes untouched, because the setter mutates a discarded
by-value copy of the buffer; GetFileName afterwards still returns the old
bytes, so the length field and the name bytes disagree whenever the new
length differs from the old. -/
theorem lfh_setFileName_frame_effect :
    ∀ (h : LocalFileHeader) (name : List Nat), name.length < 65536 →
      (h.SetFileName name).fileName = h.fileName ∧
      (h.SetFileName name).fileNameLength = name.length ∧
      (h.SetFileName name).GetFileName = h.GetFileName ∧
      (h.GetFileName ≠ name → (h.SetFileName name).GetFileName ≠ name) ∧
      (h.fileName.length ≠ name.length →
        (h.SetFileName name).fileNameLength ≠ ((h.SetFileName name).fileName).length) := by
  intro h name hlen
  have m : name.length % 65536 = name.length := Nat.mod_eq_of_lt hlen
  simp [LocalFileHeader.SetFileName, LocalFileHeader.SetFileNameLength,
    LocalFileHeader.GetFileName, m]
  intro hne hcontra
  exact hne hcontra.symm

/-- Witness for C8: renaming the sample header (name "a") to "bc" leaves
the stored bytes [97] while setting the length field to 2. -/
theorem lfh_setFileName_frame_effect_witness :
    (lfhSample.SetFileName [98, 99]).fileName = lfhSample.fileName ∧
    (lfhSample.SetFileName [98, 99]).fileNameLength = 2 ∧
    (lfhSample.SetFileName [98, 99]).GetFileName = lfhSample.GetFileName ∧
    (lfhSample.GetFileName ≠ [98, 99] →
      (lfhSample.SetFileName [98, 99]).GetFileName ≠ [98, 99]) ∧
    (lfhSample.fileName.length ≠ ([98, 99] : List Nat).length →
      (lfhSample.SetFileName [98, 99]).fileNameLength ≠
        ((lfhSample.SetFileName [98, 99]).fileName).length) :=
  lfh_setFileName_frame_effect lfhSample [98, 99] (by decide)

/-- C9: CentralFileHeader::SetComment stores the comment bytes in the
comment field but records their length in the extra-field-length field
(field 11) via SetExtraFieldLength, leaving the file-comment-length field
(field 12) unchanged; afterwards GetExtraFieldLength equals the comment
size while GetFileCommentLength only equals it if it already did. -/
theorem cfh_setComment_frame_effect :
    ∀ (h : CentralFileHeader) (c : List Nat), c.length < 65536 →
      (h.SetComment c).GetComment = c ∧
      (h.SetComment c).GetExtraFieldLength = c.length ∧
      (h.SetComment c).GetFileCommentLength = h.GetFileCommentLength ∧
      (h.GetFileCommentLength ≠ c.length →
        (h.SetComment c).GetFileCommentLength ≠ c.length) := by
  intro h c hlen
  have m : c.length % 65536 = c.length := Nat.mod_eq_of_lt hlen
  simp [CentralFileHeader.SetComment, CentralFileHeader.SetExtraFieldLength,
    CentralFileHeader.GetComment, CentralFileHeader.GetFileCommentLength,
    CentralFileHeader.GetExtraFieldLength, m]

/-- Witness for C9: setting comment "xyz" on the sample central header
writes the bytes, sets extra-field-length to 3, and leaves
file-comment-length at 0, which differs from 3. -/
theorem cfh_setComment_frame_effect_witness :
    (cfhSample.SetComment [120, 121, 122]).GetComment = [120, 121, 122] ∧
    (cfhSample.SetComment [120, 121, 122]).GetExtraFieldLength = 3 ∧
    (cfhSample.SetComment [120, 121, 122]).GetFileCommentLength =
      cfhSample.GetFileCommentLength ∧
    (cfhSample.GetFileCommentLength ≠ ([120, 121, 122] : List Nat).length →
      (cfhSample.SetComment [120, 121, 122]).GetFileCommentLength ≠
        ([120, 121, 122] : List Nat).length) :=
  cfh_setComment_frame_effect cfhSample [120, 121, 122] (by decide)

set_option maxHeartbeats 1000000 in
/-- C10: the Zip64 EOCD constructor zero-initializes both entry-count
fields; the read validator for entries-on-this-disk rejects 0, so writing
a default-constructed record and reading its own bytes back fails with
InvalidZip64CentralDirectoryRecord; a write-then-read round trip can
succeed only for a record whose entry count is nonzero, i.e. only after
SetTotalNumberOfEntries was called with a nonzero value. -/
theorem zip64_default_roundtrip_rule :
    Zip64EndOfCentralDirectoryRecord.construct.totalNumberOfEntries = 0 ∧
    Zip64EndOfCentralDirectoryRecord.construct.totalNumberOfEntriesInCD = 0 ∧
    (∀ maxOffset, Zip64EndOfCentralDirectoryRecord.Read maxOffset
        Zip64EndOfCentralDirectoryRecord.construct.Write =
      Except.error ZipError.InvalidZip64CentralDirectoryRecord) ∧
    (∀ maxOffset (r : Zip64EndOfCentralDirectoryRecord) x,
      Zip64EndOfCentralDirectoryRecord.Read maxOffset r.Write = Except.ok x →
      r.totalNumberOfEntries ≠ 0) ∧
    (∀ n, (Zip64EndOfCentralDirectoryRecord.construct.SetTotalNumberOfEntries
              n).totalNumberOfEntries = n ∧
          (Zip64EndOfCentralDirectoryRecord.construct.SetTotalNumberOfEntries
              n).totalNumberOfEntriesInCD = n) := by
  refine ⟨rfl, rfl, ?_, ?_, fun n => ⟨rfl, rfl⟩⟩
  · intro maxOffset
    simp [Zip64EndOfCentralDirectoryRecord.Read, Zip64EndOfCentralDirectoryRecord.construct,
      Zip64EndOfCentralDirectoryRecord.Write, except_bind_eq_error, except_bind_ok,
      readUInt_eq_ok, readUInt_eq_error, readBytes_eq_ok, readBytes_eq_error,
      throwIf_eq_ok, throwIf_eq_error, pure_eq_error, take_leEncode, drop_leEncode,
      drop_leEncode_of_le, take_leEncode_self, leDecode_leEncode, leEncode_length,
      Prod.exists, and_assoc]
    right
    norm_num [Zip64EndOfCentralDirectoryRecord.Size]
  · intro maxOffset r x h
    obtain ⟨r2, rest⟩ := x
    have hf := zip64RecordRead_ok_facts h
    have hnz := hf.2.2.2.2.2.2.1
    have hpos := hf.2.2.2.2.2.2.2.2.2.2.2.2.2
    intro h0
    simp only [Zip64EndOfCentralDirectoryRecord.Write, List.append_assoc, drop_leEncode,
      take_leEncode, leDecode_leEncode, h0, Nat.zero_mod] at hpos
    exact hnz hpos

/-- Witness for C10: the default record round trip fails at bound 0, the
one-entry record round trip succeeds so its entry count is nonzero, and
SetTotalNumberOfEntries 7 writes 7 into both fields. -/
theorem zip64_default_roundtrip_rule_witness :
    Zip64EndOfCentralDirectoryRecord.Read 0
        Zip64EndOfCentralDirectoryRecord.construct.Write =
      Except.error ZipError.InvalidZip64CentralDirectoryRecord ∧
    zip64OneEntry.totalNumberOfEntries ≠ 0 ∧
    ((Zip64EndOfCentralDirectoryRecord.construct.SetTotalNumberOfEntries
          7).totalNumberOfEntries = 7 ∧
      (Zip64EndOfCentralDirectoryRecord.construct.SetTotalNumberOfEntries
          7).totalNumberOfEntriesInCD = 7) :=
  ⟨zip64_default_roundtrip_rule.2.2.1 0,
   zip64_default_roundtrip_rule.2.2.2.1 56 zip64OneEntry (zip64OneEntry, []) (by decide),
   zip64_default_roundtrip_rule.2.2.2.2 7⟩

set_option maxRecDepth 100000 in
/-- C1: ZipStream::Read performs only the three trailer-record reads and
never touches containedFiles, so any successful open leaves GetFileNames
exactly as it was before the open; in particular opening the one-entry
archive (whose central directory really holds an entry named "a", as the
third conjunct shows) leaves the freshly constructed stream's name list
empty instead of returning the entry names. -/
theorem zipstream_read_populates_nothing :
    (∀ z d z2, ZipStream.Read z d = Except.ok z2 →
      ZipStream.GetFileNames z2 = ZipStream.GetFileNames z) ∧
    ZipStream.Read ⟨[]⟩ oneEntryArchive = Except.ok ⟨[]⟩ ∧
    ZipStream.GetFileNames ⟨[]⟩ = [] ∧
    (CentralFileHeader.Read (oneEntryArchive.drop 31)).map
      (fun p => p.1.GetFileName) = Except.ok [97] := by
  refine ⟨?_, by decide, by decide, by decide⟩
  intro z d z2 h
  simp only [ZipStream.Read, except_bind_ok, except_pure_eq, Except.ok.injEq,
    Prod.exists] at h
  obtain ⟨a1, a2, ha, l, lr, hl, c1, c2, hc, hz⟩ := h
  rw [← hz]

set_option maxRecDepth 100000 in
/-- Witness for C1: opening the one-entry archive from a stream state that
already holds one name leaves GetFileNames exactly as it was. -/
theorem zipstream_read_populates_nothing_witness :
    ZipStream.GetFileNames ⟨[([97], 0)]⟩ = ZipStream.GetFileNames ⟨[([97], 0)]⟩ :=
  zipstream_read_populates_nothing.1 ⟨[([97], 0)]⟩ oneEntryArchive ⟨[([97], 0)]⟩ (by decide)

/-- C4 (amended): discovery runs in exactly this order: seek to
end - sizeof(EOCD) and read the EOCD; seek to end - (sizeof(EOCD) +
sizeof(Locator)) and read the locator with its relative offset bounded by
end - sizeof(EOCD), the position where the EOCD begins, so everything lies
before the EOCD; then seek from the start to the locator's decoded
relative offset and read the Zip64 EOCD with its size/offset fields
bounded by end - 42, the position where the locator record begins (the
stream position just prior to that seek minus the locator's size, not
that stream position itself). -/
theorem zipstream_discovery_order (z : ZipStream) (d : List Nat) :
    ZipStream.Read z d =
      (EndCentralDirectoryRecord.Read (d.drop (d.length - 22)) >>= fun _ =>
       Zip64EndOfCentralDirectoryLocator.Read (d.length - 22) (d.drop (d.length - 42)) >>=
         fun p =>
       Zip64EndOfCentralDirectoryRecord.Read (d.length - 42) (d.drop p.1.relativeOffset) >>=
         fun _ => pure z) := by
  simp only [ZipStream.Read, EndCentralDirectoryRecord.Size,
    Zip64EndOfCentralDirectoryLocator.Size, Zip64EndOfCentralDirectoryLocator.GetRelativeOffset,
    Nat.add_sub_cancel, Nat.reduceAdd]

set_option maxRecDepth 100000 in
/-- Counterexample for C4 as stated: on the 98-byte stream whose Zip64
EOCD declares size-of-CD 60, ZipStream::Read rejects the archive because
its bound is the locator start position end - 42 = 56, whereas the
procedure exactly as the claim words it (bound = the stream position just
prior to the absolute seek, end - 22 = 76) accepts it. -/
theorem zipstream_bound_counterexample :
    ZipStream.Read ⟨[]⟩ boundCounterexampleStream =
      Except.error ZipError.InvalidZip64CentralDirectoryRecord ∧
    ZipStream.ReadAsClaimed ⟨[]⟩ boundCounterexampleStream = Except.ok ⟨[]⟩ :=
  ⟨by decide, by decide⟩
